import Mathlib

/-!
Verification development for the streamlit-web-automation repository.

The embedding follows `src/automation/task_manager.py` and
`src/automation/web_controller.py`:

* Python `datetime` values are stored through the exact inverse pair
  `isoformat` / `fromisoformat`, which is order-preserving; timestamps are
  therefore modelled as natural numbers.
* JSON payloads (`Dict[str, Any]` fields, `List[str]` tags) are stored through
  the exact inverse pair `json.dumps` / `json.loads`; a payload is modelled by
  its association list, and only its emptiness matters to the truthiness
  checks in `save_task` and `_row_to_task`.
* The SQLite `tasks` table stores enumeration columns as their `.value`
  (a bijection inverted by the enum constructor in `_row_to_task`), so a row
  carries the enum member directly.
-/

namespace WebAutomation

/-- The `TaskStatus` enum of `task_manager.py`. -/
inductive TaskStatus where
  | pending
  | running
  | completed
  | failed
  | cancelled
  | scheduled
deriving DecidableEq, Repr

/-- The `.value` string of each `TaskStatus` member. -/
def TaskStatus.value : TaskStatus → String
  | .pending => "pending"
  | .running => "running"
  | .completed => "completed"
  | .failed => "failed"
  | .cancelled => "cancelled"
  | .scheduled => "scheduled"

/-- The enum constructor `TaskStatus(s)`: `some` member whose value is `s`,
`none` when Python would raise `ValueError`. -/
def taskStatusOfString (s : String) : Option TaskStatus :=
  if s = "pending" then some .pending
  else if s = "running" then some .running
  else if s = "completed" then some .completed
  else if s = "failed" then some .failed
  else if s = "cancelled" then some .cancelled
  else if s = "scheduled" then some .scheduled
  else none

/-- The `TaskPriority` enum of `task_manager.py`. -/
inductive TaskPriority where
  | low
  | medium
  | high
  | urgent
deriving DecidableEq, Repr

/-- The `.value` of each `TaskPriority` member. -/
def TaskPriority.value : TaskPriority → Nat
  | .low => 1
  | .medium => 2
  | .high => 3
  | .urgent => 4

/-- Timestamps: `datetime` values, ordered; stored via the order-preserving
bijection `isoformat`. -/
abbrev Time := Nat

/-- A JSON object payload (`Dict[str, Any]`): an association list from keys to
(serialised) values. -/
abbrev Dict := List (String × String)

/-- The `AutomationTask` dataclass. -/
structure AutomationTask where
  id : String
  task_type : String
  url : String
  description : String
  priority : TaskPriority
  status : TaskStatus
  created_at : Time
  updated_at : Time
  scheduled_at : Option Time := none
  executed_at : Option Time := none
  completed_at : Option Time := none
  result : Option Dict := none
  error_message : Option String := none
  retry_count : Nat := 0
  max_retries : Nat := 3
  task_data : Option Dict := none
  tags : Option (List String) := none
  webhook_url : Option String := none
deriving DecidableEq, Repr

/-- One row of the SQLite `tasks` table (enum columns carried as enum members,
datetime columns as times, JSON text columns as parsed payloads; see the file
header for the stored bijections). -/
structure TaskRow where
  id : String
  task_type : String
  url : String
  description : String
  priority : TaskPriority
  status : TaskStatus
  created_at : Time
  updated_at : Time
  scheduled_at : Option Time
  executed_at : Option Time
  completed_at : Option Time
  result : Option Dict
  error_message : Option String
  retry_count : Nat
  max_retries : Nat
  task_data : Option Dict
  tags : Option (List String)
  webhook_url : Option String
deriving DecidableEq, Repr

/-- Python `json.dumps(x) if x else None` on an optional collection: `None`
and the empty collection are falsy, so both store SQL NULL; a non-empty
collection stores its serialisation. -/
def serializeOptList {β : Type} (o : Option (List β)) : Option (List β) :=
  match o with
  | some l => if l.isEmpty then none else some l
  | none => none

/-- The column values `save_task` binds for a task (`task_manager.py`,
`TaskDatabase.save_task`). -/
def taskToRow (t : AutomationTask) : TaskRow :=
  { id := t.id
    task_type := t.task_type
    url := t.url
    description := t.description
    priority := t.priority
    status := t.status
    created_at := t.created_at
    updated_at := t.updated_at
    scheduled_at := t.scheduled_at
    executed_at := t.executed_at
    completed_at := t.completed_at
    result := serializeOptList t.result
    error_message := t.error_message
    retry_count := t.retry_count
    max_retries := t.max_retries
    task_data := serializeOptList t.task_data
    tags := serializeOptList t.tags
    webhook_url := t.webhook_url }

/-- `TaskDatabase._row_to_task`: read a row back into an `AutomationTask`.
NULL JSON columns read back as `None`; a stored JSON text is non-empty hence
truthy, so a present column reads back as its parsed payload. -/
def rowToTask (r : TaskRow) : AutomationTask :=
  { id := r.id
    task_type := r.task_type
    url := r.url
    description := r.description
    priority := r.priority
    status := r.status
    created_at := r.created_at
    updated_at := r.updated_at
    scheduled_at := r.scheduled_at
    executed_at := r.executed_at
    completed_at := r.completed_at
    result := r.result
    error_message := r.error_message
    retry_count := r.retry_count
    max_retries := r.max_retries
    task_data := r.task_data
    tags := r.tags
    webhook_url := r.webhook_url }

/-- The `tasks` relation (primary key `id`). -/
abbrev TaskDb := List TaskRow

/-- `TaskDatabase.save_task`: `INSERT OR REPLACE` keyed by the primary key —
any existing row with this id is removed and the freshly serialised row
inserted. -/
def saveTask (db : TaskDb) (t : AutomationTask) : TaskDb :=
  db.filter (fun r => !(r.id == t.id)) ++ [taskToRow t]

/-- `TaskDatabase.get_task`: `SELECT * FROM tasks WHERE id = ?`, returning the
task or `None`. -/
def getTask (db : TaskDb) (task_id : String) : Option AutomationTask :=
  (db.find? (fun r => r.id == task_id)).map rowToTask

/-- The `ORDER BY created_at DESC` ordering (isoformat text comparison agrees
with the time order). -/
def createdDesc (a b : TaskRow) : Prop := b.created_at ≤ a.created_at

instance : DecidableRel createdDesc := fun a b => Nat.decLe b.created_at a.created_at

instance : IsTotal TaskRow createdDesc := ⟨fun a b => Nat.le_total b.created_at a.created_at⟩

instance : IsTrans TaskRow createdDesc := ⟨fun _ _ _ hab hbc => Nat.le_trans hbc hab⟩

/-- `TaskDatabase.get_tasks`: optional status filter (enum members are always
truthy, so filtering happens exactly when a status is passed), ordered by
`created_at DESC`, `LIMIT` applied. -/
def getTasks (db : TaskDb) (status : Option TaskStatus) (limit : Nat) :
    List AutomationTask :=
  let rows :=
    match status with
    | some s => db.filter (fun r => r.status == s)
    | none => db
  ((List.insertionSort createdDesc rows).take limit).map rowToTask

/-- The id `create_task` generates from the millisecond clock reading
`int(time.time() * 1000)`. -/
def taskIdOf (nowMs : Nat) : String := "task_" ++ toString nowMs

/-- `TaskScheduler.create_task`, the constructed task: `nowMs` is the
millisecond clock reading used for the id, `now` the `datetime.now()` reading
used for the timestamps. Status is Scheduled exactly when `scheduled_at` is
passed (datetime objects are always truthy). No field is validated. -/
def createTask (nowMs : Nat) (now : Time) (task_type url description : String)
    (priority : TaskPriority) (scheduled_at : Option Time)
    (task_data : Option Dict) (tags : Option (List String))
    (webhook_url : Option String) : AutomationTask :=
  { id := taskIdOf nowMs
    task_type := task_type
    url := url
    description := description
    priority := priority
    status := if scheduled_at.isSome then TaskStatus.scheduled else TaskStatus.pending
    created_at := now
    updated_at := now
    scheduled_at := scheduled_at
    executed_at := none
    completed_at := none
    result := none
    error_message := none
    retry_count := 0
    max_retries := 3
    task_data := task_data
    tags := tags
    webhook_url := webhook_url }

/-- `TaskScheduler.create_task`, the full effect: persist the task and return
the new store plus the returned id. -/
def schedulerCreateTask (db : TaskDb) (nowMs : Nat) (now : Time)
    (task_type url description : String) (priority : TaskPriority)
    (scheduled_at : Option Time) (task_data : Option Dict)
    (tags : Option (List String)) (webhook_url : Option String) :
    TaskDb × String :=
  let t := createTask nowMs now task_type url description priority scheduled_at
    task_data tags webhook_url
  (saveTask db t, t.id)

/-- The dictionary `TaskScheduler.get_task_status` builds for a found task. -/
structure TaskStatusView where
  id : String
  status : String
  description : String
  created_at : Time
  updated_at : Time
  executed_at : Option Time
  completed_at : Option Time
  result : Option Dict
  error_message : Option String
  retry_count : Nat
deriving DecidableEq, Repr

/-- Projection of a task into the `get_task_status` dictionary. -/
def taskStatusView (t : AutomationTask) : TaskStatusView :=
  { id := t.id
    status := t.status.value
    description := t.description
    created_at := t.created_at
    updated_at := t.updated_at
    executed_at := t.executed_at
    completed_at := t.completed_at
    result := t.result
    error_message := t.error_message
    retry_count := t.retry_count }

/-- `TaskScheduler.get_task_status`: `None` when the id is unknown, else the
status dictionary. -/
def getTaskStatus (db : TaskDb) (task_id : String) : Option TaskStatusView :=
  (getTask db task_id).map taskStatusView

/-- The dictionary `TaskScheduler.get_all_tasks` builds per task. -/
structure TaskListView where
  id : String
  task_type : String
  url : String
  description : String
  priority : Nat
  status : String
  created_at : Time
  updated_at : Time
  scheduled_at : Option Time
  result : Option Dict
  error_message : Option String
deriving DecidableEq, Repr

/-- Projection of a task into the `get_all_tasks` dictionary. -/
def taskListView (t : AutomationTask) : TaskListView :=
  { id := t.id
    task_type := t.task_type
    url := t.url
    description := t.description
    priority := t.priority.value
    status := t.status.value
    created_at := t.created_at
    updated_at := t.updated_at
    scheduled_at := t.scheduled_at
    result := t.result
    error_message := t.error_message }

/-- `TaskScheduler.get_all_tasks`: `TaskStatus(status) if status else None` —
`None` and the empty string are falsy, so they mean no filter; any other
string goes through the enum constructor, which raises `ValueError` for an
unknown value (modelled as `Except.error`). The database is queried with the
default limit 100. -/
def getAllTasks (db : TaskDb) (status : Option String) :
    Except String (List TaskListView) :=
  match status with
  | none => .ok ((getTasks db none 100).map taskListView)
  | some s =>
    if s = "" then .ok ((getTasks db none 100).map taskListView)
    else
      match taskStatusOfString s with
      | some st => .ok ((getTasks db (some st) 100).map taskListView)
      | none => .error ("ValueError: " ++ s ++ " is not a valid TaskStatus")

/-- Modelled from the spec: `dispatch_due(now)` is not implemented in the
source — `TaskScheduler` declares `scheduler_thread` and `running` but no
dispatch loop exists anywhere in the repository. Following section 4.3 of the
specification, a task is due when status = Pending, or status = Scheduled and
`scheduled_at <= now`. -/
def isDue (now : Time) (r : TaskRow) : Bool :=
  r.status == TaskStatus.pending ||
    (r.status == TaskStatus.scheduled &&
      match r.scheduled_at with
      | some s => decide (s ≤ now)
      | none => false)

/-- Modelled from the spec: `dispatch_due(now)` selects the due tasks, for
each transitions it to Running and records `executed_at`, and invokes the
Backend for the kind of each selected task; the second component collects the
backend invocations as (task id, action kind) pairs. -/
def dispatchDue (now : Time) (db : TaskDb) : TaskDb × List (String × String) :=
  (db.map (fun r =>
      if isDue now r then
        { r with status := TaskStatus.running, executed_at := some now }
      else r),
   (db.filter (isDue now)).map (fun r => (r.id, r.task_type)))

/-- The result dictionary of `WebAutomationController.perform_click_sequence`. -/
structure ClickSequenceResult where
  success : Bool
  successful_clicks : List String
  failed_clicks : List String
  total_attempted : Nat
deriving DecidableEq, Repr

/-- One iteration of the click loop: on success the selector is appended to
the successful list, on an exception the selector decorated with the error
text is appended to the failed list. -/
def clickStep (clickOk : String → Bool) (clickErr : String → String)
    (acc : List String × List String) (selector : String) :
    List String × List String :=
  if clickOk selector then (acc.1 ++ [selector], acc.2)
  else (acc.1, acc.2 ++ [selector ++ ": " ++ clickErr selector])

/-- `WebAutomationController.perform_click_sequence`. The per-selector click
attempt (wait until clickable, scroll, click) is the browser collaborator:
`clickOk s` tells whether the attempt on selector `s` succeeds and
`clickErr s` is the exception text when it fails. -/
def performClickSequence (clickOk : String → Bool) (clickErr : String → String)
    (click_selectors : List String) : ClickSequenceResult :=
  let r := click_selectors.foldl (clickStep clickOk clickErr) ([], [])
  { success := decide (0 < r.1.length)
    successful_clicks := r.1
    failed_clicks := r.2
    total_attempted := click_selectors.length }

/-! ## Concrete example values, used by witnesses and counterexamples -/

/-- A sample task created without a schedule. -/
def exTask : AutomationTask :=
  createTask 7 100 "data_extraction" "https://example.com" "extract titles"
    TaskPriority.medium none none none none

/-- A sample task created with a schedule 600 seconds after creation. -/
def exScheduledTask : AutomationTask :=
  createTask 8 0 "form_fill" "https://example.com/form" "fill the form"
    TaskPriority.high (some 600) none none none

/-! ## Helper lemmas -/

theorem serializeOptList_eq_self_iff {β : Type} (o : Option (List β)) :
    serializeOptList o = o ↔ o ≠ some [] := by
  cases o with
  | none => simp [serializeOptList]
  | some l => cases l <;> simp [serializeOptList]

theorem taskToRow_id (t : AutomationTask) : (taskToRow t).id = t.id := rfl

theorem rowToTask_created_at (r : TaskRow) :
    (rowToTask r).created_at = r.created_at := rfl

theorem getTask_saveTask (db : TaskDb) (t : AutomationTask) :
    getTask (saveTask db t) t.id = some (rowToTask (taskToRow t)) := by
  unfold getTask saveTask
  rw [List.find?_append]
  have h1 : (db.filter (fun r => !(r.id == t.id))).find? (fun r => r.id == t.id)
      = none := by
    rw [List.find?_eq_none]
    intro r hr
    have h2 := (List.mem_filter.mp hr).2
    simpa using h2
  rw [h1]
  simp [List.find?, taskToRow_id]

theorem countP_saveTask (db : TaskDb) (t : AutomationTask) :
    (saveTask db t).countP (fun r => r.id == t.id) = 1 := by
  unfold saveTask
  rw [List.countP_append]
  have h0 : (db.filter (fun r => !(r.id == t.id))).countP (fun r => r.id == t.id)
      = 0 := by
    rw [List.countP_eq_zero]
    intro r hr
    have h2 := (List.mem_filter.mp hr).2
    simpa using h2
  rw [h0]
  simp [List.countP, List.countP.go, taskToRow_id]

theorem saveTask_idem (db : TaskDb) (t : AutomationTask) :
    saveTask (saveTask db t) t = saveTask db t := by
  unfold saveTask
  rw [List.filter_append, List.filter_filter]
  simp [List.filter, taskToRow_id]

theorem clickFoldl_eq (clickOk : String → Bool) (clickErr : String → String)
    (l : List String) : ∀ acc : List String × List String,
    l.foldl (clickStep clickOk clickErr) acc =
      (acc.1 ++ l.filter clickOk,
       acc.2 ++ (l.filter (fun s => !clickOk s)).map
         (fun s => s ++ ": " ++ clickErr s)) := by
  induction l with
  | nil => intro acc; simp
  | cons s l ih =>
    intro acc
    by_cases h : clickOk s
    · simp [clickStep, h, ih, List.filter_cons]
    · simp [clickStep, h, ih, List.filter_cons]

theorem filter_length_partition (p : String → Bool) (l : List String) :
    (l.filter p).length + (l.filter (fun a => !p a)).length = l.length := by
  induction l with
  | nil => rfl
  | cons a l ih => by_cases h : p a <;> simp [List.filter_cons, h] <;> omega

theorem find?_of_mem_unique (db : TaskDb) (r : TaskRow)
    (huniq : db.Pairwise (fun a b => a.id ≠ b.id)) (hr : r ∈ db) :
    db.find? (fun x => x.id == r.id) = some r := by
  induction db with
  | nil => cases hr
  | cons a l ih =>
    rcases List.mem_cons.mp hr with h | h
    · subst h
      simp [List.find?]
    · have hne : a.id ≠ r.id := (List.pairwise_cons.mp huniq).1 r h
      have : (a.id == r.id) = false := by simpa using hne
      simp [List.find?, this]
      exact ih (List.pairwise_cons.mp huniq).2 h

theorem mem_getTasks (db : TaskDb) (status : Option TaskStatus) (limit : Nat)
    (t : AutomationTask) (ht : t ∈ getTasks db status limit) :
    ∃ r, r ∈ db ∧ t = rowToTask r ∧
      ∀ st, status = some st → r.status = st := by
  unfold getTasks at ht
  rcases List.mem_map.mp ht with ⟨r, hr, hrt⟩
  have hr2 := List.take_subset _ _ hr
  have hr3 := (List.perm_insertionSort createdDesc _).mem_iff.mp hr2
  cases status with
  | none => exact ⟨r, hr3, hrt.symm, fun st hst => by cases hst⟩
  | some s =>
    rcases List.mem_filter.mp hr3 with ⟨hmem, hstat⟩
    refine ⟨r, hmem, hrt.symm, fun st hst => ?_⟩
    cases hst
    simpa using hstat

theorem getTasks_pairwise (db : TaskDb) (status : Option TaskStatus)
    (limit : Nat) :
    (getTasks db status limit).Pairwise
      (fun a b : AutomationTask => b.created_at ≤ a.created_at) := by
  unfold getTasks
  apply List.pairwise_map.mpr
  have hsorted := List.sorted_insertionSort createdDesc
    (match status with
     | some s => db.filter (fun r => r.status == s)
     | none => db)
  exact (hsorted.sublist (List.take_sublist ..)).imp (fun hab => hab)

theorem countP_getTasks_of_le (db : TaskDb) (limit : Nat)
    (h : db.length ≤ limit) (q : AutomationTask → Bool) :
    (getTasks db none limit).countP q =
      db.countP (fun r => q (rowToTask r)) := by
  have hdef : getTasks db none limit =
      ((List.insertionSort createdDesc db).take limit).map rowToTask := rfl
  rw [hdef]
  have hperm := List.perm_insertionSort createdDesc db
  rw [List.take_of_length_le (by rw [hperm.length_eq]; exact h)]
  rw [List.countP_map]
  exact hperm.countP_eq _

/-! ## Claim theorems -/

/-- Claim C8: perform_click_sequence processes the selectors strictly in input
order — the succeeded output is the in-order subsequence of selectors whose
click succeeded and the failed output the in-order subsequence of the others,
decorated with the error text — so a failure on one selector does not abort
the remaining selectors, every selector is accounted for in exactly one of the
two outputs, and the success flag is true exactly when at least one click
succeeded. -/
theorem perform_click_sequence_spec (clickOk : String → Bool)
    (clickErr : String → String) (selectors : List String) :
    (performClickSequence clickOk clickErr selectors).successful_clicks =
        selectors.filter clickOk ∧
    (performClickSequence clickOk clickErr selectors).failed_clicks =
        (selectors.filter (fun s => !clickOk s)).map
          (fun s => s ++ ": " ++ clickErr s) ∧
    ((performClickSequence clickOk clickErr selectors).success = true ↔
        ∃ s ∈ selectors, clickOk s = true) ∧
    (performClickSequence clickOk clickErr selectors).successful_clicks.length
        + (performClickSequence clickOk clickErr
            selectors).failed_clicks.length =
      selectors.length ∧
    (performClickSequence clickOk clickErr selectors).total_attempted =
      selectors.length := by
  have hfold := clickFoldl_eq clickOk clickErr selectors ([], [])
  refine ⟨?_, ?_, ?_, ?_, ?_⟩
  · simp [performClickSequence, hfold]
  · simp [performClickSequence, hfold]
  · simp only [performClickSequence, hfold, List.nil_append]
    rw [decide_eq_true_eq, ← List.countP_eq_length_filter]
    exact List.countP_pos_iff
  · simp only [performClickSequence, hfold, List.nil_append, List.length_map]
    exact filter_length_partition clickOk selectors
  · rfl

/-- Witness for claim C8: a concrete sequence where the first selector fails
and the remaining two succeed. -/
theorem perform_click_sequence_spec_witness :
    (performClickSequence (fun s => s != "#bad") (fun _ => "element not found")
        ["#bad", "#ok1", "#ok2"]).successful_clicks = ["#ok1", "#ok2"] := by
  rw [(perform_click_sequence_spec (fun s => s != "#bad")
    (fun _ => "element not found") ["#bad", "#ok1", "#ok2"]).1]
  decide

/-- Claim C7: save_task is an idempotent upsert keyed by id — saving the same
task twice yields the same store state as saving it once, the row for the id
occurs exactly once, a get after save returns the saved record, and the task
occurs exactly once in a listing large enough to hold the store. -/
theorem save_task_idempotent_spec (db : TaskDb) (t : AutomationTask)
    (limit : Nat) (hlim : (saveTask db t).length ≤ limit) :
    saveTask (saveTask db t) t = saveTask db t ∧
    (saveTask db t).countP (fun r => r.id == t.id) = 1 ∧
    getTask (saveTask db t) t.id = some (rowToTask (taskToRow t)) ∧
    (getTasks (saveTask db t) none limit).countP (fun x => x.id == t.id)
      = 1 := by
  refine ⟨saveTask_idem db t, countP_saveTask db t, getTask_saveTask db t, ?_⟩
  rw [countP_getTasks_of_le _ _ hlim]
  exact countP_saveTask db t

/-- Witness for claim C7 at a concrete task and limit. -/
theorem save_task_idempotent_spec_witness :
    (saveTask [] exTask).length ≤ 1 ∧
    saveTask (saveTask [] exTask) exTask = saveTask [] exTask ∧
    getTask (saveTask [] exTask) exTask.id =
      some (rowToTask (taskToRow exTask)) :=
  ⟨by decide, (save_task_idempotent_spec [] exTask 1 (by decide)).1,
    (save_task_idempotent_spec [] exTask 1 (by decide)).2.2.1⟩

/-- Claim C5: for every id not present in the store the status query returns
the NotFound signal None — both get_task and get_task_status — and for every
stored id it returns that row read back as a task record. -/
theorem get_task_status_spec (db : TaskDb) (task_id : String)
    (huniq : db.Pairwise (fun a b => a.id ≠ b.id)) :
    ((∀ r ∈ db, r.id ≠ task_id) →
      getTask db task_id = none ∧ getTaskStatus db task_id = none) ∧
    (∀ r ∈ db, r.id = task_id →
      getTask db task_id = some (rowToTask r) ∧
      getTaskStatus db task_id = some (taskStatusView (rowToTask r))) := by
  constructor
  · intro h
    have hfind : db.find? (fun x => x.id == task_id) = none := by
      rw [List.find?_eq_none]
      intro r hr
      simpa using h r hr
    constructor
    · simp [getTask, hfind]
    · simp [getTaskStatus, getTask, hfind]
  · intro r hr hid
    subst hid
    have hfind := find?_of_mem_unique db r huniq hr
    constructor
    · simp [getTask, hfind]
    · simp [getTaskStatus, getTask, hfind]

/-- Witness for claim C5: a store holding one task — an unknown id returns
None. -/
theorem get_task_status_spec_witness :
    getTask [taskToRow exTask] "task_missing" = none ∧
    getTaskStatus [taskToRow exTask] "task_missing" = none :=
  (get_task_status_spec [taskToRow exTask] "task_missing" (by decide)).1
    (by decide)

/-- Claim C6: listing returns at most limit tasks, every returned task has
exactly the filtered status when a filter is given, and the returned tasks are
ordered newest-created-first by creation time. -/
theorem get_tasks_listing_spec (db : TaskDb) (status : Option TaskStatus)
    (limit : Nat) :
    (getTasks db status limit).length ≤ limit ∧
    (∀ st, status = some st →
      ∀ t ∈ getTasks db status limit, t.status = st) ∧
    (getTasks db status limit).Pairwise
      (fun a b => b.created_at ≤ a.created_at) := by
  refine ⟨?_, ?_, getTasks_pairwise db status limit⟩
  · have hdef : getTasks db status limit =
        ((List.insertionSort createdDesc
          (match status with
           | some s => db.filter (fun r => r.status == s)
           | none => db)).take limit).map rowToTask := rfl
    rw [hdef, List.length_map]
    exact List.length_take_le ..
  · intro st hst t ht
    rcases mem_getTasks db status limit t ht with ⟨r, _, rfl, hstat⟩
    exact hstat st hst

/-- Witness for claim C6 at a concrete store and limit. -/
theorem get_tasks_listing_spec_witness :
    (getTasks [taskToRow exTask, taskToRow exScheduledTask] none 1).length
      ≤ 1 :=
  (get_tasks_listing_spec [taskToRow exTask, taskToRow exScheduledTask]
    none 1).1

/-- Claim C9: an empty result, task_data or tags collection is stored as NULL
and read back as None; the save/get round-trip restores a task exactly iff
each of these fields is None or non-empty; and a task recorded with an empty
result payload is stored identically to one with no result. -/
theorem save_get_empty_normalization (t : AutomationTask) :
    (rowToTask (taskToRow t) = t ↔
      (t.result ≠ some [] ∧ t.task_data ≠ some [] ∧ t.tags ≠ some [])) ∧
    taskToRow { t with result := some [] } =
      taskToRow { t with result := none } ∧
    (rowToTask (taskToRow { t with result := some [] })).result = none ∧
    (rowToTask (taskToRow { t with task_data := some [] })).task_data
      = none ∧
    (rowToTask (taskToRow { t with tags := some [] })).tags = none := by
  refine ⟨?_, ?_, ?_, ?_, ?_⟩
  · have hsplit : rowToTask (taskToRow t) = t ↔
        (serializeOptList t.result = t.result ∧
         serializeOptList t.task_data = t.task_data ∧
         serializeOptList t.tags = t.tags) := by
      cases t
      simp only [rowToTask, taskToRow, AutomationTask.mk.injEq, true_and]
      tauto
    rw [hsplit]
    simp only [serializeOptList_eq_self_iff]
  · simp [taskToRow, serializeOptList]
  · simp [rowToTask, taskToRow, serializeOptList]
  · simp [rowToTask, taskToRow, serializeOptList]
  · simp [rowToTask, taskToRow, serializeOptList]

/-- Witness for claim C9: a completed-style task carrying an empty result
payload reads back with no result. -/
theorem save_get_empty_normalization_witness :
    (rowToTask (taskToRow { exTask with result := some [] })).result
      = none :=
  (save_get_empty_normalization exTask).2.2.1

/-- Claim C1 counterexample: a FormFill submission with empty url, empty
description and an empty field mapping is persisted and its id returned,
where the claim requires a ValidationError with no task persisted and no id
returned. -/
theorem create_task_validation_counterexample :
    (schedulerCreateTask [] 0 0 "form_fill" "" "" TaskPriority.medium none
        (some []) none none).2 = "task_0" ∧
    getTask (schedulerCreateTask [] 0 0 "form_fill" "" "" TaskPriority.medium
        none (some []) none none).1 "task_0" ≠ none := by
  refine ⟨rfl, ?_⟩
  decide

/-- Claim C1 (amended): create_task performs no validation — every call, with
any url, description and kind-specific parameters (empty ones included),
persists the constructed task and returns its id; there is no ValidationError
path. -/
theorem create_task_no_validation (db : TaskDb) (nowMs : Nat) (now : Time)
    (ty url d : String) (pr : TaskPriority) (sc : Option Time)
    (td : Option Dict) (tg : Option (List String)) (wh : Option String) :
    (schedulerCreateTask db nowMs now ty url d pr sc td tg wh).2 =
        taskIdOf nowMs ∧
    getTask (schedulerCreateTask db nowMs now ty url d pr sc td tg wh).1
        (taskIdOf nowMs) =
      some (rowToTask (taskToRow
        (createTask nowMs now ty url d pr sc td tg wh))) := by
  exact ⟨rfl, getTask_saveTask db (createTask nowMs now ty url d pr sc td tg wh)⟩

/-- Witness for claim C1 at a concrete call. -/
theorem create_task_no_validation_witness :
    (schedulerCreateTask [] 3 4 "form_fill" "" "" TaskPriority.low none
        (some []) none none).2 = taskIdOf 3 :=
  (create_task_no_validation [] 3 4 "form_fill" "" "" TaskPriority.low none
    (some []) none none).1

/-- Claim C2 counterexample: a task created at time 10 with scheduled_at 5 —
at or before the creation time, hence not strictly in the future — has status
Scheduled, where the claim requires Pending. -/
theorem create_task_past_schedule_counterexample :
    (createTask 0 10 "form_fill" "https://example.com" "d" TaskPriority.medium
        (some 5) none none none).status = TaskStatus.scheduled ∧
    5 ≤ 10 := by
  exact ⟨rfl, by decide⟩

/-- Claim C2 (amended): the created task status is Scheduled exactly when
scheduled_at is provided — with any value, past or future — and Pending
exactly when it is absent. -/
theorem create_task_status_iff (nowMs : Nat) (now : Time) (ty url d : String)
    (pr : TaskPriority) (sc : Option Time) (td : Option Dict)
    (tg : Option (List String)) (wh : Option String) :
    ((createTask nowMs now ty url d pr sc td tg wh).status =
        TaskStatus.scheduled ↔ sc.isSome = true) ∧
    ((createTask nowMs now ty url d pr sc td tg wh).status =
        TaskStatus.pending ↔ sc = none) := by
  cases sc <;> simp [createTask]

/-- Witness for claim C2 at a concrete call with a schedule. -/
theorem create_task_status_iff_witness :
    (createTask 1 2 "form_fill" "https://example.com" "d" TaskPriority.medium
        (some 99) none none none).status = TaskStatus.scheduled :=
  (create_task_status_iff 1 2 "form_fill" "https://example.com" "d"
    TaskPriority.medium (some 99) none none none).1.mpr (by decide)

/-- Claim C3 counterexample: two create_task calls in the same millisecond
(clock reading 7) produce the same id, and persisting the second silently
replaces the stored record of the first — the store holds a single row for
the id, carrying the second description. -/
theorem task_id_reuse_counterexample :
    (createTask 7 100 "data_extraction" "https://a" "first" TaskPriority.medium
        none none none none).id =
      (createTask 7 200 "data_extraction" "https://b" "second"
        TaskPriority.medium none none none none).id ∧
    (getTask
        (saveTask (saveTask [] (createTask 7 100 "data_extraction" "https://a"
            "first" TaskPriority.medium none none none none))
          (createTask 7 200 "data_extraction" "https://b" "second"
            TaskPriority.medium none none none none)) "task_7").map
        (fun t => t.description) = some "second" ∧
    (saveTask (saveTask [] (createTask 7 100 "data_extraction" "https://a"
        "first" TaskPriority.medium none none none none))
      (createTask 7 200 "data_extraction" "https://b" "second"
        TaskPriority.medium none none none none)).length = 1 := by
  refine ⟨rfl, ?_, ?_⟩ <;> decide

/-- Claim C3 (amended): the generated id depends only on the millisecond
clock reading, so two create_task calls in the same millisecond produce the
same id, and persisting the second replaces the stored record of the first —
save_task is an upsert by id, leaving exactly one row for the id. -/
theorem task_id_reuse_same_millisecond (db : TaskDb) (nowMs : Nat)
    (now₁ now₂ : Time) (ty₁ u₁ d₁ ty₂ u₂ d₂ : String)
    (pr₁ pr₂ : TaskPriority) (sc₁ sc₂ : Option Time) (td₁ td₂ : Option Dict)
    (tg₁ tg₂ : Option (List String)) (wh₁ wh₂ : Option String) :
    (createTask nowMs now₁ ty₁ u₁ d₁ pr₁ sc₁ td₁ tg₁ wh₁).id =
        (createTask nowMs now₂ ty₂ u₂ d₂ pr₂ sc₂ td₂ tg₂ wh₂).id ∧
    getTask
        (saveTask
          (saveTask db (createTask nowMs now₁ ty₁ u₁ d₁ pr₁ sc₁ td₁ tg₁ wh₁))
          (createTask nowMs now₂ ty₂ u₂ d₂ pr₂ sc₂ td₂ tg₂ wh₂))
        (createTask nowMs now₁ ty₁ u₁ d₁ pr₁ sc₁ td₁ tg₁ wh₁).id =
      some (rowToTask (taskToRow
        (createTask nowMs now₂ ty₂ u₂ d₂ pr₂ sc₂ td₂ tg₂ wh₂))) ∧
    (saveTask
        (saveTask db (createTask nowMs now₁ ty₁ u₁ d₁ pr₁ sc₁ td₁ tg₁ wh₁))
        (createTask nowMs now₂ ty₂ u₂ d₂ pr₂ sc₂ td₂ tg₂ wh₂)).countP
      (fun r => r.id ==
        (createTask nowMs now₁ ty₁ u₁ d₁ pr₁ sc₁ td₁ tg₁ wh₁).id) = 1 := by
  refine ⟨rfl, ?_, ?_⟩
  · exact getTask_saveTask
      (saveTask db (createTask nowMs now₁ ty₁ u₁ d₁ pr₁ sc₁ td₁ tg₁ wh₁))
      (createTask nowMs now₂ ty₂ u₂ d₂ pr₂ sc₂ td₂ tg₂ wh₂)
  · exact countP_saveTask
      (saveTask db (createTask nowMs now₁ ty₁ u₁ d₁ pr₁ sc₁ td₁ tg₁ wh₁))
      (createTask nowMs now₂ ty₂ u₂ d₂ pr₂ sc₂ td₂ tg₂ wh₂)

/-- Witness for claim C3 at two concrete calls sharing millisecond 9. -/
theorem task_id_reuse_same_millisecond_witness :
    (createTask 9 1 "form_fill" "https://a" "a" TaskPriority.low none none
        none none).id =
      (createTask 9 2 "form_fill" "https://b" "b" TaskPriority.low none none
        none none).id :=
  (task_id_reuse_same_millisecond [] 9 1 2 "form_fill" "https://a" "a"
    "form_fill" "https://b" "b" TaskPriority.low TaskPriority.low none none
    none none none none none none).1

/-- Claim C4 (spec-modelled, dispatch_due is absent from the source):
dispatch_due(now) selects exactly the rows whose status is Pending, or
Scheduled with scheduled_at at most now; each selected row transitions to
Running with executed_at recorded and one backend invocation for its kind is
made; an unselected row is left unchanged. -/
theorem dispatch_due_spec (now : Time) (db : TaskDb) (r : TaskRow)
    (hr : r ∈ db) :
    (isDue now r = true ↔
      (r.status = TaskStatus.pending ∨
        (r.status = TaskStatus.scheduled ∧
          ∃ s, r.scheduled_at = some s ∧ s ≤ now))) ∧
    (isDue now r = true →
      { r with status := TaskStatus.running, executed_at := some now } ∈
          (dispatchDue now db).1 ∧
      (r.id, r.task_type) ∈ (dispatchDue now db).2) ∧
    (isDue now r = false → r ∈ (dispatchDue now db).1) := by
  refine ⟨?_, ?_, ?_⟩
  · cases hs : r.scheduled_at <;>
      simp [isDue, hs, Bool.or_eq_true, Bool.and_eq_true, beq_iff_eq]
  · intro h
    constructor
    · have hm := List.mem_map_of_mem
        (fun x => if isDue now x then
          { x with status := TaskStatus.running, executed_at := some now }
         else x) hr
      simpa [dispatchDue, h] using hm
    · have hm := List.mem_map_of_mem (fun x : TaskRow => (x.id, x.task_type))
        (List.mem_filter.mpr ⟨hr, h⟩)
      simpa [dispatchDue] using hm
  · intro h
    have hm := List.mem_map_of_mem
      (fun x => if isDue now x then
        { x with status := TaskStatus.running, executed_at := some now }
       else x) hr
    simpa [dispatchDue, h] using hm

/-- Witness for claim C4 at the scenario of the claim: a task created at time
0 with scheduled_at 600 is not due at time 60, but is due at time 601, where
its row transitions to Running with executed_at recorded. -/
theorem dispatch_due_spec_witness :
    isDue 60 (taskToRow exScheduledTask) = false ∧
    isDue 601 (taskToRow exScheduledTask) = true ∧
    { taskToRow exScheduledTask with
        status := TaskStatus.running, executed_at := some 601 } ∈
      (dispatchDue 601 [taskToRow exScheduledTask]).1 := by
  refine ⟨by decide, by decide, ?_⟩
  exact ((dispatch_due_spec 601 [taskToRow exScheduledTask]
    (taskToRow exScheduledTask) (by decide)).2.1 (by decide)).1

/-- Claim C10 counterexample: the empty string is not one of the six status
values, yet get_all_tasks raises nothing — the falsy check treats it as no
filter and the full listing is returned. -/
theorem get_all_tasks_empty_string_counterexample :
    taskStatusOfString "" = none ∧
    getAllTasks [taskToRow exTask] (some "") =
      Except.ok [taskListView (rowToTask (taskToRow exTask))] := by
  exact ⟨rfl, rfl⟩

/-- Claim C10 (amended): for every non-empty status string that is not one of
the six lowercase values, get_all_tasks fails with the ValueError of the enum
conversion — capitalised names such as "Pending" included — while the empty
string is falsy and treated as no filter, and each of the six valid strings
filters by that status. -/
theorem get_all_tasks_invalid_status_spec (db : TaskDb) (s : String)
    (hne : s ≠ "")
    (hinv : s ∉ ["pending", "running", "completed", "failed", "cancelled",
      "scheduled"]) :
    getAllTasks db (some s) =
        Except.error ("ValueError: " ++ s ++ " is not a valid TaskStatus") ∧
    ∀ st : TaskStatus, getAllTasks db (some st.value) =
      Except.ok ((getTasks db (some st) 100).map taskListView) := by
  constructor
  · have hconv : taskStatusOfString s = none := by
      simp only [List.mem_cons, List.not_mem_nil, or_false, not_or] at hinv
      obtain ⟨h1, h2, h3, h4, h5, h6⟩ := hinv
      simp [taskStatusOfString, h1, h2, h3, h4, h5, h6]
    simp [getAllTasks, hne, hconv]
  · intro st
    cases st <;> rfl

/-- Witness for claim C10: the capitalised name "Pending" is rejected with a
ValueError. -/
theorem get_all_tasks_invalid_status_spec_witness :
    getAllTasks [] (some "Pending") =
      Except.error "ValueError: Pending is not a valid TaskStatus" :=
  (get_all_tasks_invalid_status_spec [] "Pending" (by decide) (by decide)).1

end WebAutomation
